import Mathlib

/-!
Verification of the agents repository against its specification.

The definitions below are a shallow embedding of the Python sources:

* `validate_code`, `run_generated_code`, `run_generated_code_inproc` embed
  `sgr-agent-store/coder_agent.py` (the generated-code sandbox executor);
  operating-system effects (file writing, process or worker execution) are
  modelled by explicit behaviour parameters, and the functions additionally
  record which effects would have been performed.
* `generate` / `generateSeq` (and the three-counter variant `generate3` /
  `generateSeq3`) embed the two `usage_tracking_model.py` variants.
* `execute_api_call` and `model_dump_json` embed the shared
  `StoreAPITool._execute_api_call` body of `hf_store_agent_tools.py` and
  `agent_dev_tools.py`; backend responses are modelled as records of named
  fields that are unset, set to null, or set to a serialized value.
* `sgr_run_agent` embeds the hand-rolled structured-step loop of
  `store_agent.py`; the model and the store API are behaviour parameters.
* `model_name_for_logging` and the `*LoggedModel` functions embed how each
  benchmark driver builds the model-name string it reports.
* `devDriverRun` / `baselineDriverRun` embed the per-task driver loops of
  `agent_dev/main.py` and `hf_store_agent/main.py` as event traces.
* `hf_run_agent` embeds the reporting tail of `hf_store_agent.py::run_agent`
  together with Python attribute lookup on the baseline usage model.
-/

/-! ## Sandbox validator and executor (`coder_agent.py`) -/

/-- Python regex word character (`\w`) over the ASCII text the sandbox sees:
letters, digits and the underscore. -/
def isWordChar (c : Char) : Bool := c.isAlpha || c.isDigit || c == '_'

/-- Python regex whitespace (`\s`): space, tab, newline, carriage return,
vertical tab and form feed. -/
def isSpaceChar (c : Char) : Bool :=
  c == ' ' || c == '\t' || c == '\n' || c == '\r' || c == '\x0b' || c == '\x0c'

/-- If `tok` is a prefix of `s`, the rest of `s` after it; otherwise `none`. -/
def stripTok : List Char → List Char → Option (List Char)
  | [], s => some s
  | _ :: _, [] => none
  | t :: ts, c :: cs => if c == t then stripTok ts cs else none

/-- Regex `\b` before a token that starts with a word character: holds when
the preceding character (if any) is not a word character. -/
def boundaryBefore : Option Char → Bool
  | none => true
  | some c => !isWordChar c

/-- Regex `\b` after a token that ends with a word character: holds when the
following character (if any) is not a word character. -/
def boundaryAfter : List Char → Bool
  | [] => true
  | c :: _ => !isWordChar c

/-- Matching the regex `\btok\b` at the current position of the scanned text;
`prev` is the character just before that position.  All tokens of the
denylist start and end with word characters, so the two boundary checks are
exactly the `\b` semantics. -/
def wbMatchAt (tok : List Char) (prev : Option Char) (s : List Char) : Bool :=
  boundaryBefore prev &&
    match stripTok tok s with
    | some rest => boundaryAfter rest
    | none => false

/-- Matching the regex `\btok\s*\(` at the current position of the text. -/
def callMatchAt (tok : List Char) (prev : Option Char) (s : List Char) : Bool :=
  boundaryBefore prev &&
    match stripTok tok s with
    | some rest =>
      match rest.dropWhile isSpaceChar with
      | '(' :: _ => true
      | _ => false
    | none => false

/-- Python re.search: try the position matcher at every position of the
text, keeping track of the previous character for the boundary checks. -/
def searchFrom (f : Option Char → List Char → Bool) : Option Char → List Char → Bool
  | prev, [] => f prev []
  | prev, c :: cs => f prev (c :: cs) || searchFrom f (some c) cs

/-- Search for `\btok\b` anywhere in the text. -/
def searchWB (tok : String) (s : List Char) : Bool :=
  searchFrom (wbMatchAt tok.data) none s

/-- Search for `\btok\s*\(` anywhere in the text. -/
def searchCall (tok : String) (s : List Char) : Bool :=
  searchFrom (callMatchAt tok.data) none s

/-- The `_BANNED_PATTERNS` list of `coder_agent.py`: each entry is the
pattern's regex source text (the text that appears in the rejection
message) paired with its matcher. -/
def bannedPatterns : List (String × (List Char → Bool)) :=
  [("\\bsubprocess\\b", searchWB "subprocess"),
   ("\\bos\\.system\\b", searchWB "os.system"),
   ("\\b__import__\\b", searchWB "__import__"),
   ("\\beval\\s*\\(|\\bexec\\s*\\(|\\bcompile\\s*\\(",
     fun s => searchCall "eval" s || searchCall "exec" s || searchCall "compile" s),
   ("\\bsocket\\b", searchWB "socket"),
   ("\\brequests\\b", searchWB "requests"),
   ("\\bftp\\b", searchWB "ftp"),
   ("\\bopen\\s*\\(", searchCall "open")]

/-- The first banned pattern (in list order) that re.search finds in the
code text, as its regex source text. -/
def findBanned (code : List Char) : Option String :=
  match bannedPatterns.find? (fun p => p.2 code) with
  | some p => some p.1
  | none => none

/-- validate_code of `coder_agent.py`: returns (ok, message); a banned
pattern is reported first, then code longer than 20000 characters is
rejected as too large. -/
def validate_code (code : String) : Bool × Option String :=
  match findBanned code.data with
  | some pat => (false, some ("Disallowed pattern found: " ++ pat))
  | none =>
    if code.length > 20000 then (false, some "Generated code is too large")
    else (true, none)

/-- Plain substring containment, the reading used by the claim that any code
containing one of the denylist substrings is rejected. -/
def containsSubstr (pat s : String) : Bool :=
  searchFrom (fun _ rest => (stripTok pat.data rest).isSome) none s.data

/-- Behaviour of the spawned interpreter process in run_generated_code:
either it completes with captured output and an exit code, or the run call
raises (timeout, OS failure, ...). -/
inductive ExecBehavior
  | completes (out err : String) (returncode : Int)
  | raisesErr (msg : String)
deriving DecidableEq

/-- The result dict of run_generated_code; absent dict keys are `none`. -/
structure RunResult where
  ok : Bool
  error : Option String := none
  stdout : Option String := none
  stderr : Option String := none
  returncode : Option Int := none
  path : Option String := none
deriving DecidableEq

/-- The result of run_generated_code together with which effects happened:
whether the code was written to a file and whether execution was started. -/
structure RunTrace where
  result : RunResult
  fileWritten : Bool
  executed : Bool
deriving DecidableEq

/-- run_generated_code of `coder_agent.py`: validate, then write the code to
a temp file and execute it; `path` is the temp path the write would use and
`exec` the behaviour of the spawned process. -/
def run_generated_code (code : String) (path : String) (exec : ExecBehavior) : RunTrace :=
  match validate_code code with
  | (false, msg) =>
    { result := { ok := false, error := msg }, fileWritten := false, executed := false }
  | (true, _) =>
    match exec with
    | .completes out err rc =>
      { result := { ok := true, stdout := some out, stderr := some err,
                    returncode := some rc, path := some path },
        fileWritten := true, executed := true }
    | .raisesErr m =>
      { result := { ok := false, error := some m, path := some path },
        fileWritten := true, executed := true }

/-- Behaviour of the background worker in run_generated_code_inproc: still
alive when the join-timeout elapses (with whatever partial output sits in
the capture buffers), finished with an exception, or finished normally
(with the value of a top-level `result` variable, if any). -/
inductive WorkerBehavior
  | hangs (bufOut bufErr : String)
  | raisesErr (msg : String) (out err : String)
  | finishes (out err : String) (result : Option String)
deriving DecidableEq

/-- The result dict of run_generated_code_inproc; absent keys are `none`. -/
structure InprocResult where
  ok : Bool
  error : Option String := none
  stdout : Option String := none
  stderr : Option String := none
  result : Option String := none
deriving DecidableEq

/-- The result of run_generated_code_inproc plus whether execution began. -/
structure InprocTrace where
  result : InprocResult
  executed : Bool
deriving DecidableEq

/-- run_generated_code_inproc of `coder_agent.py`: validate, then run the
code on a daemon worker joined with `timeout`.  On timeout the dict carries
only ok and the timeout message; on an in-code exception it carries the
exception text plus the captured stdout/stderr; on success it carries the
captured output and the optional `result` value. -/
def run_generated_code_inproc (code : String) (timeout : Nat) (w : WorkerBehavior) : InprocTrace :=
  match validate_code code with
  | (false, msg) => { result := { ok := false, error := msg }, executed := false }
  | (true, _) =>
    match w with
    | .hangs _ _ =>
      { result := { ok := false,
                    error := some ("Execution timed out after " ++ toString timeout ++ "s") },
        executed := true }
    | .raisesErr m out err =>
      { result := { ok := false, error := some m, stdout := some out, stderr := some err },
        executed := true }
    | .finishes out err r =>
      { result := { ok := true, stdout := some out, stderr := some err, result := r },
        executed := true }

/-! ## Usage-tracking model wrapper (`usage_tracking_model.py`, two variants) -/

/-- Token usage of one model call in the smolagents response format. -/
structure Usage where
  input_tokens : Nat
  output_tokens : Nat
deriving DecidableEq

/-- Mutable state of the baseline UsageTrackingModel: the running totals and
the usage of the most recent call. -/
structure UTMState where
  total_usage : Usage
  last_usage : Option Usage
deriving DecidableEq

/-- State set up by the baseline UsageTrackingModel constructor. -/
def initUTM : UTMState := { total_usage := ⟨0, 0⟩, last_usage := none }

/-- UsageTrackingModel.generate of the baseline variant, as a state
transition: `tu` is the token_usage carried by the underlying model's
response (`none` when the response has no usage metadata, in which case a
warning is logged and the counters are untouched). -/
def generate (st : UTMState) (tu : Option Usage) : UTMState :=
  match tu with
  | none => st
  | some u =>
    { total_usage := ⟨st.total_usage.input_tokens + u.input_tokens,
                      st.total_usage.output_tokens + u.output_tokens⟩,
      last_usage := some u }

/-- A sequence of generate calls on the baseline wrapper. -/
def generateSeq (st : UTMState) (rs : List (Option Usage)) : UTMState :=
  rs.foldl generate st

/-- TokenUsage of the three-counter variant (OpenAI-compatible format). -/
structure TokenUsage where
  prompt_tokens : Nat
  completion_tokens : Nat
  total_tokens : Nat
deriving DecidableEq

/-- Mutable state of the three-counter UsageTrackingModel variant. -/
structure UTM3State where
  total_usage : TokenUsage
  last_usage : Option TokenUsage
deriving DecidableEq

/-- State set up by the three-counter variant's constructor. -/
def initUTM3 : UTM3State := { total_usage := ⟨0, 0, 0⟩, last_usage := none }

/-- UsageTrackingModel.generate of the three-counter variant. -/
def generate3 (st : UTM3State) (tu : Option Usage) : UTM3State :=
  match tu with
  | none => st
  | some u =>
    let usage : TokenUsage :=
      ⟨u.input_tokens, u.output_tokens, u.input_tokens + u.output_tokens⟩
    { total_usage := ⟨st.total_usage.prompt_tokens + usage.prompt_tokens,
                      st.total_usage.completion_tokens + usage.completion_tokens,
                      st.total_usage.total_tokens + usage.total_tokens⟩,
      last_usage := some usage }

/-- A sequence of generate calls on the three-counter wrapper. -/
def generateSeq3 (st : UTM3State) (rs : List (Option Usage)) : UTM3State :=
  rs.foldl generate3 st

/-- The TokenUsage record the three-counter variant builds from one
response's token counts. -/
def toTokenUsage (u : Usage) : TokenUsage :=
  ⟨u.input_tokens, u.output_tokens, u.input_tokens + u.output_tokens⟩

/-! ## Tool adapters (`hf_store_agent_tools.py`, `agent_dev_tools.py`) -/

/-- State of one named field of a pydantic response object: never assigned
(excluded by exclude_unset), assigned None (excluded by exclude_none), or
assigned a value, carried here in its JSON-serialized form. -/
inductive FieldState
  | unset
  | setNull
  | setVal (v : String)
deriving DecidableEq

/-- A backend response object: its named fields in declaration order. -/
structure PyResponse where
  fields : List (String × FieldState)
deriving DecidableEq

/-- A field name wrapped in JSON double quotes. -/
def quoteStr (s : String) : String := "\"" ++ s ++ "\""

/-- Comma-join in pydantic's compact JSON style. -/
def joinComma : List String → String
  | [] => ""
  | [s] => s
  | s :: rest => s ++ "," ++ joinComma rest

/-- Comma-join in json.dumps' default style. -/
def joinCommaSp : List String → String
  | [] => ""
  | [s] => s
  | s :: rest => s ++ ", " ++ joinCommaSp rest

/-- The fields a model_dump_json(exclude_none=True, exclude_unset=True) call
keeps: set fields with a non-null value, in order. -/
def presentFields (r : PyResponse) : List (String × String) :=
  r.fields.filterMap fun kv =>
    match kv.2 with
    | .setVal v => some (kv.1, v)
    | _ => none

/-- The field names that appear in the rendered JSON text. -/
def dumpedKeys (r : PyResponse) : List String :=
  (presentFields r).map Prod.fst

/-- model_dump_json(exclude_none=True, exclude_unset=True) on a response:
a JSON object holding exactly the set, non-null fields. -/
def model_dump_json (r : PyResponse) : String :=
  "\x7b" ++ joinComma ((presentFields r).map fun kv => quoteStr kv.1 ++ ":" ++ kv.2) ++ "\x7d"

/-- json.dumps on a plain dict (the adapter's defensive branch): null values
are kept, rendered as the literal null. -/
def json_dumps (entries : List (String × Option String)) : String :=
  "\x7b" ++
    joinCommaSp (entries.map fun kv =>
      quoteStr kv.1 ++ ": " ++ (match kv.2 with | some v => v | none => "null")) ++
  "\x7d"

/-- Outcome of building the request object from the tool-call arguments:
either it is built, or the constructor raises (argument validation). -/
inductive BuildOutcome
  | built
  | buildError (msg : String)
deriving DecidableEq

/-- What dispatch returns when it does not raise: a pydantic response object
or (defensively handled by the adapter) a plain dict. -/
inductive DispatchResult
  | pyModel (r : PyResponse)
  | pyDict (entries : List (String × Option String))
deriving DecidableEq

/-- Behaviour of store_api.dispatch for this call: a result (possibly None),
an ApiException carrying the backend error message, or any other
exception. -/
inductive DispatchOutcome
  | ok (result : Option DispatchResult)
  | apiError (error : String)
  | otherError (msg : String)
deriving DecidableEq

/-- StoreAPITool._execute_api_call (identical in the store-domain and the
dev-domain adapter library): build the request, dispatch it, render the
result compactly; an ApiException becomes the text API Error: message, any
other exception (including request construction) becomes Error: message,
and a None result becomes the literal No content. -/
def execute_api_call (build : BuildOutcome) (dispatch : DispatchOutcome) : String :=
  match build with
  | .buildError m => "Error: " ++ m
  | .built =>
    match dispatch with
    | .ok none => "No content"
    | .ok (some (.pyModel r)) => model_dump_json r
    | .ok (some (.pyDict d)) => json_dumps d
    | .apiError e => "API Error: " ++ e
    | .otherError m => "Error: " ++ m

/-! ## Structured-step ("SGR") single-loop agent (`store_agent.py`) -/

/-- The tool_calls payload of a hand-appended assistant turn. -/
structure ToolCall where
  id : String
  name : String
  arguments : String
deriving DecidableEq

/-- One entry of the hand-maintained conversation transcript. -/
inductive Msg
  | system (content : String)
  | user (content : String)
  | assistant (content : String) (toolCall : ToolCall)
  | tool (content : String) (tool_call_id : String)
deriving DecidableEq

/-- The completion code of ReportTaskCompletion. -/
inductive CompletionCode
  | completed
  | failed
deriving DecidableEq

/-- ReportTaskCompletion of `store_agent.py`. -/
structure ReportTaskCompletion where
  completed_steps_laconic : List String
  code : CompletionCode
deriving DecidableEq

/-- One of the seven store request DTOs the NextStep schema can choose.  The
DTO types live in the external erc3 library; the loop only reads the
request's class name and its model_dump_json serialization, so a request is
modelled by those two strings. -/
structure StoreRequest where
  className : String
  dumpJson : String
deriving DecidableEq

/-- The error carried by an ApiException: detail is appended to the
transcript, api_error.error is printed. -/
structure ApiError where
  detail : String
  errorText : String
deriving DecidableEq

/-- NextStep of `store_agent.py`: the structured decision the model returns
each step.  plan_remaining_steps_brief is validated by pydantic to MinLen 1;
the loop uses only its first entry. -/
structure NextStep where
  current_state : String
  plan_remaining_steps_brief : List String
  task_completed : Bool
  function : Sum ReportTaskCompletion StoreRequest
deriving DecidableEq

/-- The text appended as the tool-result turn: the dispatch result rendered
with exclude_none and exclude_unset, or on ApiException the error detail. -/
def sgrResultText (dispatch : StoreRequest → Except ApiError PyResponse)
    (req : StoreRequest) : String :=
  match dispatch req with
  | .ok result => model_dump_json result
  | .error e => e.detail

/-- The reasoning loop of run_agent in `store_agent.py`: at most `fuel`
steps; each step asks the model (`decide`, applied to the full transcript)
for a NextStep; a completion report ends the loop appending nothing, any
other choice appends the assistant tool-call turn and the tool-result turn
and continues.  Returns the final transcript and whether the loop ended via
the completion report. -/
def sgrLoop (decide : List Msg → NextStep)
    (dispatch : StoreRequest → Except ApiError PyResponse) :
    Nat → Nat → List Msg → List Msg × Bool
  | 0, _, log => (log, false)
  | fuel + 1, i, log =>
    match (decide log).function with
    | Sum.inl _ => (log, true)
    | Sum.inr req =>
      let stepId := "step_" ++ toString (i + 1)
      sgrLoop decide dispatch fuel (i + 1)
        (log ++ [Msg.assistant ((decide log).plan_remaining_steps_brief.headD "")
                   ⟨stepId, req.className, req.dumpJson⟩,
                 Msg.tool (sgrResultText dispatch req) stepId])

/-- The system prompt literal of `store_agent.py`. -/
def sgrSystemPrompt : String :=
  "\nYou are a business assistant helping customers of OnlineStore.\n\n" ++
  "- Clearly report when tasks are done.\n" ++
  "- If ListProducts returns non-zero \"NextOffset\", it means there are more products available.\n" ++
  "- You can apply coupon codes to get discounts. Use ViewBasket to see current discount and total.\n" ++
  "- Only one coupon can be applied at a time. Apply a new coupon to replace the current one, or remove it explicitly.\n"

/-- run_agent of `store_agent.py`: the transcript starts as the system
prompt plus the user task text, and the loop runs with a 20-step budget. -/
def sgr_run_agent (task_text : String) (decide : List Msg → NextStep)
    (dispatch : StoreRequest → Except ApiError PyResponse) : List Msg × Bool :=
  sgrLoop decide dispatch 20 0 [Msg.system sgrSystemPrompt, Msg.user task_text]

/-- Flatten a list of (assistant, tool) pairs into transcript entries. -/
def joinPairs (ps : List (Msg × Msg)) : List Msg :=
  ps.foldr (fun p acc => p.1 :: p.2 :: acc) []

/-! ## Model names logged to the benchmark service -/

/-- Python truthiness of the or-fallback in the three-counter variant's
constructor: an absent or empty override falls through. -/
def pyOrStr (override : Option String) (fallback : String) : String :=
  match override with
  | none => fallback
  | some s => if s = "" then fallback else s

/-- model_name_for_logging as the three-counter UsageTrackingModel
constructor computes it: the explicit override if supplied (and truthy),
else the model_id when it is a string, else the sentinel unknown_model. -/
def model_name_for_logging (override : Option String) (model_id : Option String) : String :=
  pyOrStr override
    (match model_id with
     | some s => s
     | none => "unknown_model")

/-- The model name `store_agent.py` passes to log_llm: the invocation model
identifier with the openai/ prefix (OpenRouter format). -/
def sgrLoggedModel (model : String) : String := "openai/" ++ model

/-- The --model choices of `agent_dev/main.py`. -/
inductive DevModelChoice
  | gpt5mini
  | gpt5
deriving DecidableEq

/-- The logged model name for each `agent_dev/main.py` choice, as its
UsageTrackingModel construction fixes it. -/
def devLoggedModel : DevModelChoice → String
  | .gpt5mini => model_name_for_logging (some "openai/gpt-5-mini") (some "gpt-5-mini")
  | .gpt5 => model_name_for_logging (some "openai/gpt-5") (some "gpt-5")

/-- The --model choices of `hf_store_agent_system_prompt_redefined/main.py`. -/
inductive RedefModelChoice
  | gpt5mini
  | gemini
deriving DecidableEq

/-- The logged model name for each redefined-prompt driver choice; the
gemini branch passes no override, so the model_id (which already carries
the gemini/ prefix) is used. -/
def redefLoggedModel : RedefModelChoice → String
  | .gpt5mini => model_name_for_logging (some "openai/gpt-5-mini") (some "gpt-5-mini")
  | .gemini => model_name_for_logging none (some "gemini/gemini-2.0-flash-lite")

/-- The --model choices of `hf_store_agent_with_tool_agent/main.py`. -/
inductive ToolAgentModelChoice
  | gpt4o
  | gpt5mini
  | gemini
deriving DecidableEq

/-- The logged model name for each managed-agent driver choice. -/
def toolAgentLoggedModel : ToolAgentModelChoice → String
  | .gpt4o => model_name_for_logging (some "openai/gpt-4o") (some "gpt-4o")
  | .gpt5mini => model_name_for_logging (some "openai/gpt-5-mini") (some "gpt-5-mini")
  | .gemini => model_name_for_logging none (some "gemini/gemini-2.0-flash-lite")

/-- Boolean string-prefix test used to state the provider-prefix
convention. -/
def startsWithStr (p s : String) : Bool :=
  (stripTok p.data s.data).isSome

/-! ## Benchmark session drivers (`agent_dev/main.py`, `hf_store_agent/main.py`) -/

/-- Behaviour of one task's agent run as the driver loop sees it: `raises`
holds the exception text when run_agent raises. -/
structure TaskRun where
  raises : Option String
deriving DecidableEq

/-- Observable driver actions, in order: starting a task, printing a caught
exception, completing a task, submitting the session. -/
inductive DriverEv
  | startTask (i : Nat)
  | printedError (i : Nat) (msg : String)
  | completeTask (i : Nat)
  | submitSession
deriving DecidableEq

/-- The driver's per-task body: start the task, run the agent catching and
printing any exception, then complete the task. -/
def taskEvents (i : Nat) (t : TaskRun) : List DriverEv :=
  [DriverEv.startTask i] ++
    (match t.raises with
     | some m => [DriverEv.printedError i m]
     | none => []) ++
  [DriverEv.completeTask i]

/-- The task loop shared by `agent_dev/main.py` and the redefined-prompt and
managed-agent store drivers: every task of the ordered list is processed. -/
def allTasksLoop : Nat → List TaskRun → List DriverEv
  | _, [] => []
  | i, t :: ts => taskEvents i t ++ allTasksLoop (i + 1) ts

/-- The `agent_dev/main.py` driver: the full task loop, then one session
submission. -/
def devDriverRun (tasks : List TaskRun) : List DriverEv :=
  allTasksLoop 0 tasks ++ [DriverEv.submitSession]

/-- The task loop of `hf_store_agent/main.py`, which breaks after the task
at index 2 (a demo bound), leaving later tasks unprocessed. -/
def baselineTasksLoop : Nat → List TaskRun → List DriverEv
  | _, [] => []
  | i, t :: ts =>
    taskEvents i t ++ (if i == 2 then [] else baselineTasksLoop (i + 1) ts)

/-- The `hf_store_agent/main.py` driver: the bounded task loop, then one
session submission. -/
def baselineDriverRun (tasks : List TaskRun) : List DriverEv :=
  baselineTasksLoop 0 tasks ++ [DriverEv.submitSession]

/-! ## Baseline store runtime usage reporting (`hf_store_agent/hf_store_agent.py`) -/

/-- Instance attributes relevant to run_agent's reporting step that the
baseline UsageTrackingModel carries: model_id from the LiteLLMModel
constructor plus the two counters its own constructor sets.  The baseline
variant sets no model_name_for_logging. -/
def baselineModelAttrs : List String := ["model_id", "total_usage", "last_usage"]

/-- Python's AttributeError text for a missing attribute on the wrapper. -/
def attrErrorMsg (a : String) : String :=
  "'UsageTrackingModel' object has no attribute '" ++ a ++ "'"

/-- Outcome of the CodeAgent run inside run_agent's try block. -/
inductive AgentRunOutcome
  | succeeded (result : String)
  | raisedErr (msg : String)
deriving DecidableEq

/-- Observable actions of run_agent's reporting tail: the success log line,
the log_llm usage report, the failure log line of the generic handler, and
the cleanup marker of the finally block. -/
inductive RunEv
  | successLogged
  | llmUsageLogged
  | failedLogged (msg : String)
  | cleanupLogged
deriving DecidableEq

/-- run_agent of `hf_store_agent/hf_store_agent.py` from the agent run on:
on success it logs success and then reads model_name_for_logging off the
usage model while building the log_llm arguments - if the attribute is
missing, Python raises AttributeError there, the generic handler logs the
run as failed and log_llm is never invoked; any exception from the run
itself is handled the same way; the finally block always logs cleanup. -/
def hf_run_agent (attrs : List String) (run : AgentRunOutcome) : List RunEv :=
  (match run with
   | .raisedErr m => [RunEv.failedLogged m]
   | .succeeded _ =>
     RunEv.successLogged ::
       (if attrs.contains "model_name_for_logging" then [RunEv.llmUsageLogged]
        else [RunEv.failedLogged (attrErrorMsg "model_name_for_logging")])) ++
  [RunEv.cleanupLogged]

/-! ## Theorems -/

theorem generateSeq_total (us : List Usage) : ∀ st : UTMState,
    (generateSeq st (us.map some)).total_usage =
      ⟨st.total_usage.input_tokens + (us.map Usage.input_tokens).sum,
       st.total_usage.output_tokens + (us.map Usage.output_tokens).sum⟩ := by
  induction us with
  | nil => intro st; simp [generateSeq]
  | cons u us ih =>
      intro st
      simp only [List.map_cons, generateSeq, List.foldl_cons]
      have := ih (generate st (some u))
      simp only [generateSeq] at this
      rw [this]
      simp [generate, Nat.add_assoc]

theorem generateSeq_last (us : List Usage) : ∀ st : UTMState,
    (generateSeq st (us.map some)).last_usage =
      (match us.getLast? with
       | some u => some u
       | none => st.last_usage) := by
  induction us with
  | nil => intro st; simp [generateSeq]
  | cons u us ih =>
      intro st
      simp only [List.map_cons, generateSeq, List.foldl_cons]
      have := ih (generate st (some u))
      simp only [generateSeq] at this
      rw [this]
      cases us with
      | nil => simp [generate]
      | cons v vs =>
          cases h : (v :: vs).getLast? with
          | none => simp at h
          | some w => simp [h]

theorem generateSeq3_total (us : List Usage) : ∀ st : UTM3State,
    (generateSeq3 st (us.map some)).total_usage =
      ⟨st.total_usage.prompt_tokens + (us.map Usage.input_tokens).sum,
       st.total_usage.completion_tokens + (us.map Usage.output_tokens).sum,
       st.total_usage.total_tokens +
         (us.map fun u => u.input_tokens + u.output_tokens).sum⟩ := by
  induction us with
  | nil => intro st; simp [generateSeq3]
  | cons u us ih =>
      intro st
      simp only [List.map_cons, generateSeq3, List.foldl_cons]
      have := ih (generate3 st (some u))
      simp only [generateSeq3] at this
      rw [this]
      simp [generate3, Nat.add_assoc]

theorem generateSeq3_last (us : List Usage) : ∀ st : UTM3State,
    (generateSeq3 st (us.map some)).last_usage =
      (match us.getLast? with
       | some u => some (toTokenUsage u)
       | none => st.last_usage) := by
  induction us with
  | nil => intro st; simp [generateSeq3]
  | cons u us ih =>
      intro st
      simp only [List.map_cons, generateSeq3, List.foldl_cons]
      have := ih (generate3 st (some u))
      simp only [generateSeq3] at this
      rw [this]
      cases us with
      | nil => simp [generate3, toTokenUsage]
      | cons v vs =>
          cases h : (v :: vs).getLast? with
          | none => simp at h
          | some w => simp [h]

/-- C1: after any sequence of generate calls whose responses all carry token
usage, the total accumulator of either usage-tracking wrapper variant equals
the componentwise sum of all the calls' counts, last_usage equals exactly
the most recent call's counts, and a generate call whose response has no
usage metadata leaves the wrapper state (totals and last usage) entirely
unchanged. -/
theorem usage_tracking_totals_and_last (us : List Usage) :
    (generateSeq initUTM (us.map some)).total_usage =
      ⟨(us.map Usage.input_tokens).sum, (us.map Usage.output_tokens).sum⟩ ∧
    (generateSeq initUTM (us.map some)).last_usage = us.getLast? ∧
    (generateSeq3 initUTM3 (us.map some)).total_usage =
      ⟨(us.map Usage.input_tokens).sum, (us.map Usage.output_tokens).sum,
       (us.map fun u => u.input_tokens + u.output_tokens).sum⟩ ∧
    (generateSeq3 initUTM3 (us.map some)).last_usage = us.getLast?.map toTokenUsage ∧
    (∀ st : UTMState, generate st none = st) ∧
    (∀ st : UTM3State, generate3 st none = st) := by
  refine ⟨?_, ?_, ?_, ?_, fun st => rfl, fun st => rfl⟩
  · rw [generateSeq_total]; simp [initUTM]
  · rw [generateSeq_last]; cases h : us.getLast? <;> simp [initUTM]
  · rw [generateSeq3_total]; simp [initUTM3]
  · rw [generateSeq3_last]; cases h : us.getLast? <;> simp [initUTM3]

/-- C4: a tool-adapter invocation maps a backend ApiException to the plain
text API Error: message, any other exception (a request-construction
failure included) to the text Error: message, and hence always hands the
calling loop an ordinary string result. -/
theorem adapter_error_to_text (d : DispatchOutcome) (e m bm : String) :
    execute_api_call .built (.apiError e) = "API Error: " ++ e ∧
    execute_api_call .built (.otherError m) = "Error: " ++ m ∧
    execute_api_call (.buildError bm) d = "Error: " ++ bm :=
  ⟨rfl, rfl, rfl⟩

theorem dumpedKeys_aux (fields : List (String × FieldState)) (k : String) :
    (k ∈ (fields.filterMap fun kv =>
        match kv.2 with
        | FieldState.setVal v => some (kv.1, v)
        | _ => none).map Prod.fst) ↔
      ∃ v, (k, FieldState.setVal v) ∈ fields := by
  induction fields with
  | nil => simp
  | cons kv rest ih =>
      obtain ⟨name, st⟩ := kv
      cases st with
      | unset => simpa using ih
      | setNull => simpa using ih
      | setVal v =>
          simp only [List.filterMap_cons, List.map_cons, List.mem_cons, ih,
            Prod.mk.injEq, FieldState.setVal.injEq]
          constructor
          · rintro (rfl | ⟨w, hw⟩)
            · exact ⟨v, Or.inl ⟨rfl, rfl⟩⟩
            · exact ⟨w, Or.inr hw⟩
          · rintro ⟨w, ⟨rfl, rfl⟩ | hw⟩
            · exact Or.inl rfl
            · exact Or.inr ⟨w, hw⟩

/-- C5: for a non-null backend response object the adapter returns the JSON
object built from exactly the fields the response has set to a non-null
value (unset and null fields are omitted and nothing else ever appears),
and for a null backend response it returns the literal text No content. -/
theorem adapter_renders_only_set_fields (r : PyResponse) :
    execute_api_call .built (.ok (some (.pyModel r))) =
      "\x7b" ++ joinComma ((presentFields r).map fun kv => quoteStr kv.1 ++ ":" ++ kv.2) ++
        "\x7d" ∧
    (∀ k, k ∈ dumpedKeys r ↔ ∃ v, (k, FieldState.setVal v) ∈ r.fields) ∧
    execute_api_call .built (.ok none) = "No content" := by
  refine ⟨rfl, ?_, rfl⟩
  intro k
  obtain ⟨fields⟩ := r
  exact dumpedKeys_aux fields k

/-- C10: the baseline store runtime's usage model defines no
model_name_for_logging attribute, so every run that reaches the
usage-reporting step raises AttributeError while building the log_llm
arguments; the generic handler logs the run as failed, log_llm is never
invoked, and the finally block still logs the cleanup marker. -/
theorem baseline_usage_report_attribute_error (r : String) :
    baselineModelAttrs.contains "model_name_for_logging" = false ∧
    hf_run_agent baselineModelAttrs (.succeeded r) =
      [RunEv.successLogged, RunEv.failedLogged (attrErrorMsg "model_name_for_logging"),
       RunEv.cleanupLogged] ∧
    RunEv.llmUsageLogged ∉ hf_run_agent baselineModelAttrs (.succeeded r) ∧
    (∀ m, hf_run_agent baselineModelAttrs (.raisedErr m) =
      [RunEv.failedLogged m, RunEv.cleanupLogged]) := by
  have heq : hf_run_agent baselineModelAttrs (.succeeded r) =
      [RunEv.successLogged, RunEv.failedLogged (attrErrorMsg "model_name_for_logging"),
       RunEv.cleanupLogged] := by
    simp [hf_run_agent, baselineModelAttrs]
  refine ⟨by decide, heq, ?_, fun m => rfl⟩
  rw [heq]
  simp

theorem submit_notin_taskEvents (i : Nat) (t : TaskRun) :
    DriverEv.submitSession ∉ taskEvents i t := by
  obtain ⟨r⟩ := t
  cases r <;> simp [taskEvents]

theorem submit_notin_allTasksLoop (tasks : List TaskRun) :
    ∀ i, DriverEv.submitSession ∉ allTasksLoop i tasks := by
  induction tasks with
  | nil => intro i; simp [allTasksLoop]
  | cons t ts ih =>
      intro i h
      rcases List.mem_append.mp h with h | h
      · exact submit_notin_taskEvents i t h
      · exact ih (i + 1) h

theorem submit_notin_baselineTasksLoop (tasks : List TaskRun) :
    ∀ i, DriverEv.submitSession ∉ baselineTasksLoop i tasks := by
  induction tasks with
  | nil => intro i; simp [baselineTasksLoop]
  | cons t ts ih =>
      intro i h
      rcases List.mem_append.mp h with h | h
      · exact submit_notin_taskEvents i t h
      · by_cases hi : (i == 2) = true
        · rw [if_pos hi] at h; simp at h
        · rw [if_neg hi] at h; exact ih (i + 1) h

theorem start_mem_taskEvents (i : Nat) (t : TaskRun) :
    DriverEv.startTask i ∈ taskEvents i t := by
  obtain ⟨r⟩ := t; cases r <;> simp [taskEvents]

theorem complete_mem_taskEvents (i : Nat) (t : TaskRun) :
    DriverEv.completeTask i ∈ taskEvents i t := by
  obtain ⟨r⟩ := t; cases r <;> simp [taskEvents]

theorem allTasksLoop_processes (tasks : List TaskRun) :
    ∀ k i, i < tasks.length →
      DriverEv.startTask (k + i) ∈ allTasksLoop k tasks ∧
      DriverEv.completeTask (k + i) ∈ allTasksLoop k tasks := by
  induction tasks with
  | nil => intro k i h; simp at h
  | cons t ts ih =>
      intro k i h
      cases i with
      | zero =>
          constructor
          · exact List.mem_append.mpr (Or.inl (start_mem_taskEvents k t))
          · exact List.mem_append.mpr (Or.inl (complete_mem_taskEvents k t))
      | succ i =>
          have h' : i < ts.length := by simpa using h
          have := ih (k + 1) i h'
          have harith : k + (i + 1) = (k + 1) + i := by omega
          rw [harith]
          exact ⟨List.mem_append.mpr (Or.inr this.1),
                 List.mem_append.mpr (Or.inr this.2)⟩

theorem allTasksLoop_prints (tasks : List TaskRun) :
    ∀ k i t m, tasks[i]? = some t → t.raises = some m →
      DriverEv.printedError (k + i) m ∈ allTasksLoop k tasks := by
  induction tasks with
  | nil => intro k i t m h; simp at h
  | cons t0 ts ih =>
      intro k i t m hget hm
      cases i with
      | zero =>
          simp at hget
          subst hget
          refine List.mem_append.mpr (Or.inl ?_)
          simp [taskEvents, hm]
      | succ i =>
          simp at hget
          have := ih (k + 1) i t m (by simpa using hget) hm
          have harith : k + (i + 1) = (k + 1) + i := by omega
          rw [harith]
          exact List.mem_append.mpr (Or.inr this)

theorem baselineTasksLoop_processes (tasks : List TaskRun) :
    ∀ k i, k + i ≤ 2 → i < tasks.length →
      DriverEv.startTask (k + i) ∈ baselineTasksLoop k tasks ∧
      DriverEv.completeTask (k + i) ∈ baselineTasksLoop k tasks := by
  induction tasks with
  | nil => intro k i hk h; simp at h
  | cons t ts ih =>
      intro k i hk h
      cases i with
      | zero =>
          constructor
          · exact List.mem_append.mpr (Or.inl (start_mem_taskEvents k t))
          · exact List.mem_append.mpr (Or.inl (complete_mem_taskEvents k t))
      | succ i =>
          have hkne : (k == 2) = false := by
            have : k ≠ 2 := by omega
            simpa using this
          have h' : i < ts.length := by simpa using h
          have := ih (k + 1) i (by omega) h'
          have harith : k + (i + 1) = (k + 1) + i := by omega
          rw [harith]
          rw [baselineTasksLoop, hkne]
          constructor
          · refine List.mem_append.mpr (Or.inr ?_)
            simpa using this.1
          · refine List.mem_append.mpr (Or.inr ?_)
            simpa using this.2

/-- C9 (counterexample): the baseline store driver breaks out of its task
loop after the task at index 2, so with four tasks (the first of which
raises) the fourth task is never started even though the session is still
submitted; the claim that every remaining task of the ordered list is
processed by every driver is therefore false. -/
theorem baseline_driver_stops_after_third_task :
    DriverEv.startTask 3 ∉
      baselineDriverRun [⟨some "boom"⟩, ⟨none⟩, ⟨none⟩, ⟨none⟩] ∧
    DriverEv.submitSession ∈
      baselineDriverRun [⟨some "boom"⟩, ⟨none⟩, ⟨none⟩, ⟨none⟩] := by
  constructor <;> decide

/-- C9 (amended): in every benchmark driver an exception from the per-task
agent run is caught and printed without aborting the loop, the
task-completion call is still made for that task, and the session is
submitted exactly once, after the loop; the agent_dev-style drivers process
every task of the ordered list, while the baseline store driver processes
only the first three tasks (its demo bound) before submitting. -/
theorem driver_loops_catch_and_submit_once (tasks : List TaskRun) :
    (∃ pre, devDriverRun tasks = pre ++ [DriverEv.submitSession] ∧
       DriverEv.submitSession ∉ pre) ∧
    (∀ i, i < tasks.length →
       DriverEv.startTask i ∈ devDriverRun tasks ∧
       DriverEv.completeTask i ∈ devDriverRun tasks) ∧
    (∀ i t m, tasks[i]? = some t → t.raises = some m →
       DriverEv.printedError i m ∈ devDriverRun tasks) ∧
    (∃ pre, baselineDriverRun tasks = pre ++ [DriverEv.submitSession] ∧
       DriverEv.submitSession ∉ pre) ∧
    (∀ i, i < min 3 tasks.length →
       DriverEv.startTask i ∈ baselineDriverRun tasks ∧
       DriverEv.completeTask i ∈ baselineDriverRun tasks) := by
  refine ⟨⟨allTasksLoop 0 tasks, rfl, submit_notin_allTasksLoop tasks 0⟩, ?_, ?_,
    ⟨baselineTasksLoop 0 tasks, rfl, submit_notin_baselineTasksLoop tasks 0⟩, ?_⟩
  · intro i hi
    have := allTasksLoop_processes tasks 0 i hi
    rw [Nat.zero_add] at this
    exact ⟨List.mem_append.mpr (Or.inl this.1), List.mem_append.mpr (Or.inl this.2)⟩
  · intro i t m hget hm
    have := allTasksLoop_prints tasks 0 i t m hget hm
    rw [Nat.zero_add] at this
    exact List.mem_append.mpr (Or.inl this)
  · intro i hi
    have hk : 0 + i ≤ 2 := by omega
    have hl : i < tasks.length := by omega
    have := baselineTasksLoop_processes tasks 0 i hk hl
    rw [Nat.zero_add] at this
    exact ⟨List.mem_append.mpr (Or.inl this.1), List.mem_append.mpr (Or.inl this.2)⟩

theorem data_append_str (s t : String) : (s ++ t).data = s.data ++ t.data :=
  String.data_append s t

theorem stripTok_self_append (p : List Char) : ∀ rest, stripTok p (p ++ rest) = some rest := by
  induction p with
  | nil => intro rest; rfl
  | cons c cs ih => intro rest; simp [stripTok, ih]

/-- C7: every model-name string a runtime variant passes to the benchmark
service's log_llm call carries a provider prefix: the SGR loop always
prepends openai/ to the invocation identifier, and each driver's
UsageTrackingModel construction yields a name beginning openai/ or gemini/
for every admissible command-line model choice (the baseline store driver
never reaches log_llm at all, see the C10 theorem). -/
theorem logged_model_names_follow_provider_convention :
    (∀ m : String, startsWithStr "openai/" (sgrLoggedModel m) = true) ∧
    (∀ c : DevModelChoice, startsWithStr "openai/" (devLoggedModel c) = true) ∧
    (∀ c : RedefModelChoice, startsWithStr "openai/" (redefLoggedModel c) = true ∨
       startsWithStr "gemini/" (redefLoggedModel c) = true) ∧
    (∀ c : ToolAgentModelChoice, startsWithStr "openai/" (toolAgentLoggedModel c) = true ∨
       startsWithStr "gemini/" (toolAgentLoggedModel c) = true) := by
  refine ⟨?_, ?_, ?_, ?_⟩
  · intro m
    unfold startsWithStr sgrLoggedModel
    rw [data_append_str, stripTok_self_append]
    rfl
  · intro c; cases c <;> decide
  · intro c
    cases c
    · left; decide
    · right; decide
  · intro c
    cases c
    · left; decide
    · left; decide
    · right; decide

theorem stripTok_replicate (t : Char) (ts : List Char) (n : Nat) (h : t ≠ 'a') :
    stripTok (t :: ts) (List.replicate n 'a') = none := by
  cases n with
  | zero => rfl
  | succ n =>
      rw [List.replicate_succ]
      simp only [stripTok, beq_iff_eq]
      rw [if_neg (fun hh => h hh.symm)]

theorem wbMatchAt_replicate (t : Char) (ts : List Char) (prev : Option Char) (n : Nat)
    (h : t ≠ 'a') : wbMatchAt (t :: ts) prev (List.replicate n 'a') = false := by
  simp [wbMatchAt, stripTok_replicate t ts n h]

theorem callMatchAt_replicate (t : Char) (ts : List Char) (prev : Option Char) (n : Nat)
    (h : t ≠ 'a') : callMatchAt (t :: ts) prev (List.replicate n 'a') = false := by
  simp [callMatchAt, stripTok_replicate t ts n h]

theorem searchFrom_replicate (f : Option Char → List Char → Bool)
    (hf : ∀ prev m, f prev (List.replicate m 'a') = false) :
    ∀ n prev, searchFrom f prev (List.replicate n 'a') = false := by
  intro n
  induction n with
  | zero => intro prev; simpa using hf prev 0
  | succ n ih =>
      intro prev
      rw [List.replicate_succ]
      have h1 := hf prev (n + 1)
      rw [List.replicate_succ] at h1
      simp [searchFrom, h1, ih (some 'a')]

theorem searchWB_replicate (tok : String) (t : Char) (ts : List Char)
    (htok : tok.data = t :: ts) (h : t ≠ 'a') (n : Nat) :
    searchWB tok (List.replicate n 'a') = false := by
  unfold searchWB
  rw [htok]
  exact searchFrom_replicate _ (fun prev m => wbMatchAt_replicate t ts prev m h) n none

theorem searchCall_replicate (tok : String) (t : Char) (ts : List Char)
    (htok : tok.data = t :: ts) (h : t ≠ 'a') (n : Nat) :
    searchCall tok (List.replicate n 'a') = false := by
  unfold searchCall
  rw [htok]
  exact searchFrom_replicate _ (fun prev m => callMatchAt_replicate t ts prev m h) n none

theorem findBanned_replicate (n : Nat) : findBanned (List.replicate n 'a') = none := by
  have h1 := searchWB_replicate "subprocess" 's' _ rfl (by decide) n
  have h2 := searchWB_replicate "os.system" 'o' _ rfl (by decide) n
  have h3 := searchWB_replicate "__import__" '_' _ rfl (by decide) n
  have h4a := searchCall_replicate "eval" 'e' _ rfl (by decide) n
  have h4b := searchCall_replicate "exec" 'e' _ rfl (by decide) n
  have h4c := searchCall_replicate "compile" 'c' _ rfl (by decide) n
  have h5 := searchWB_replicate "socket" 's' _ rfl (by decide) n
  have h6 := searchWB_replicate "requests" 'r' _ rfl (by decide) n
  have h7 := searchWB_replicate "ftp" 'f' _ rfl (by decide) n
  have h8 := searchCall_replicate "open" 'o' _ rfl (by decide) n
  simp [findBanned, bannedPatterns, List.find?, h1, h2, h3, h4a, h4b, h4c, h5, h6, h7, h8]

/-- C2 (counterexample): the validator matches its denylist tokens only at
regex word boundaries, so the code text myftpx, which contains the
substring ftp, is accepted by validate_code and run_generated_code proceeds
to write and execute it; plain substring containment therefore does not
imply rejection. -/
theorem substring_denylist_counterexample :
    containsSubstr "ftp" "myftpx" = true ∧
    validate_code "myftpx" = (true, none) ∧
    (run_generated_code "myftpx" "/tmp/generated.py" (.completes "" "" 0)).executed = true := by
  refine ⟨by decide, by decide, by decide⟩

/-- C2 (amended): every code string in which re.search finds one of the
banned regex patterns (the denylist tokens at word boundaries, with
eval/exec/compile/open followed by optional whitespace and an opening
parenthesis) is rejected by validate_code with a non-ok result carrying a
reason, and both run_generated_code and run_generated_code_inproc return
that not-ok result before any file is written or any execution occurs. -/
theorem banned_pattern_rejected (code pat path : String) (e : ExecBehavior)
    (timeout : Nat) (w : WorkerBehavior)
    (h : findBanned code.data = some pat) :
    validate_code code = (false, some ("Disallowed pattern found: " ++ pat)) ∧
    run_generated_code code path e =
      { result := { ok := false, error := some ("Disallowed pattern found: " ++ pat) },
        fileWritten := false, executed := false } ∧
    run_generated_code_inproc code timeout w =
      { result := { ok := false, error := some ("Disallowed pattern found: " ++ pat) },
        executed := false } := by
  have hv : validate_code code = (false, some ("Disallowed pattern found: " ++ pat)) := by
    simp [validate_code, h]
  refine ⟨hv, ?_, ?_⟩
  · simp [run_generated_code, hv]
  · simp [run_generated_code_inproc, hv]

theorem banned_pattern_rejected_witness :
    validate_code "import subprocess" =
      (false, some ("Disallowed pattern found: " ++ "\\bsubprocess\\b")) :=
  (banned_pattern_rejected "import subprocess" "\\bsubprocess\\b" "/tmp/generated.py"
    (.completes "" "" 0) 10 (.finishes "" "" none) (by decide)).1

/-- C3: a code string with no banned pattern and exactly 20001 characters is
rejected as too large, and one with exactly 20000 characters is accepted by
validate_code with ok and no message. -/
theorem validate_code_size_boundary (s t : String)
    (hs : findBanned s.data = none) (ht : findBanned t.data = none)
    (hs1 : s.length = 20001) (ht1 : t.length = 20000) :
    validate_code s = (false, some "Generated code is too large") ∧
    validate_code t = (true, none) := by
  constructor
  · simp [validate_code, hs, hs1]
  · simp [validate_code, ht, ht1]

theorem validate_code_size_boundary_witness :
    validate_code (String.mk (List.replicate 20001 'a')) =
      (false, some "Generated code is too large") ∧
    validate_code (String.mk (List.replicate 20000 'a')) = (true, none) :=
  validate_code_size_boundary (String.mk (List.replicate 20001 'a'))
    (String.mk (List.replicate 20000 'a'))
    (findBanned_replicate 20001) (findBanned_replicate 20000)
    (by show (List.replicate 20001 'a').length = 20001; rw [List.length_replicate])
    (by show (List.replicate 20000 'a').length = 20000; rw [List.length_replicate])

/-- C8 (counterexample): when the in-process worker exceeds the
join-timeout, the returned dict carries only the ok flag and the timeout
message - the stdout/stderr captured before the fault ("captured so far"
here) are not in the result, so the claim that every fault preserves the
partial output is false. -/
theorem inproc_timeout_omits_captured_output :
    run_generated_code_inproc "x = 1" 10 (.hangs "captured so far" "") =
      { result := { ok := false, error := some "Execution timed out after 10s" },
        executed := true } ∧
    (run_generated_code_inproc "x = 1" 10 (.hangs "captured so far" "")).result.stdout =
      none := by
  constructor <;> decide

/-- C8 (amended): for validated code every in-process execution fault yields
a structured not-ok result rather than an exception: a worker still alive
at the join-timeout yields the timeout message built from the configured
timeout value (with no stdout/stderr fields), and an exception raised by
the executed code yields the exception text together with the stdout and
stderr captured before the fault. -/
theorem inproc_faults_structured (code : String) (timeout : Nat)
    (bufOut bufErr msg out err : String)
    (hok : (validate_code code).1 = true) :
    run_generated_code_inproc code timeout (.hangs bufOut bufErr) =
      { result := { ok := false,
                    error := some ("Execution timed out after " ++ toString timeout ++ "s") },
        executed := true } ∧
    run_generated_code_inproc code timeout (.raisesErr msg out err) =
      { result := { ok := false, error := some msg, stdout := some out, stderr := some err },
        executed := true } := by
  rcases hv : validate_code code with ⟨b, m⟩
  rw [hv] at hok
  simp only at hok
  subst hok
  constructor <;> simp [run_generated_code_inproc, hv]

theorem inproc_faults_structured_witness :
    run_generated_code_inproc "x = 1" 7 (.hangs "o" "e") =
      { result := { ok := false, error := some "Execution timed out after 7s" },
        executed := true } ∧
    run_generated_code_inproc "x = 1" 7 (.raisesErr "boom" "o" "e") =
      { result := { ok := false, error := some "boom", stdout := some "o", stderr := some "e" },
        executed := true } :=
  inproc_faults_structured "x = 1" 7 "o" "e" "boom" "o" "e" (by decide)

theorem sgrLoop_invariant (chooseStep : List Msg → NextStep)
    (dispatch : StoreRequest → Except ApiError PyResponse) :
    ∀ fuel i log,
      ∃ pairs : List (Msg × Msg),
        (sgrLoop chooseStep dispatch fuel i log).1 = log ++ joinPairs pairs ∧
        pairs.length ≤ fuel ∧
        (∀ p ∈ pairs, ∃ plan sid req,
           p.1 = Msg.assistant plan ⟨sid, req.className, req.dumpJson⟩ ∧
           p.2 = Msg.tool (sgrResultText dispatch req) sid) ∧
        ((sgrLoop chooseStep dispatch fuel i log).2 = true →
           ∃ rep, (chooseStep (sgrLoop chooseStep dispatch fuel i log).1).function =
             Sum.inl rep) ∧
        ((sgrLoop chooseStep dispatch fuel i log).2 = false → pairs.length = fuel) := by
  intro fuel
  induction fuel with
  | zero =>
      intro i log
      refine ⟨[], ?_, ?_, ?_, ?_, ?_⟩
      · simp [sgrLoop, joinPairs]
      · simp
      · simp
      · intro h; simp [sgrLoop] at h
      · intro _; rfl
  | succ fuel ih =>
      intro i log
      cases hjob : (chooseStep log).function with
      | inl rep =>
          have hstep : sgrLoop chooseStep dispatch (fuel + 1) i log = (log, true) := by
            rw [sgrLoop, hjob]
          refine ⟨[], ?_, ?_, ?_, ?_, ?_⟩
          · rw [hstep]; simp [joinPairs]
          · simp
          · simp
          · intro _; rw [hstep]; exact ⟨rep, hjob⟩
          · intro h; rw [hstep] at h; simp at h
      | inr req =>
          have hstep : sgrLoop chooseStep dispatch (fuel + 1) i log =
              sgrLoop chooseStep dispatch fuel (i + 1)
                (log ++ [Msg.assistant ((chooseStep log).plan_remaining_steps_brief.headD "")
                           ⟨"step_" ++ toString (i + 1), req.className, req.dumpJson⟩,
                         Msg.tool (sgrResultText dispatch req) ("step_" ++ toString (i + 1))]) := by
            rw [sgrLoop, hjob]
          obtain ⟨pairs, h1, h2, h3, h4, h5⟩ := ih (i + 1)
            (log ++ [Msg.assistant ((chooseStep log).plan_remaining_steps_brief.headD "")
                       ⟨"step_" ++ toString (i + 1), req.className, req.dumpJson⟩,
                     Msg.tool (sgrResultText dispatch req) ("step_" ++ toString (i + 1))])
          refine ⟨(Msg.assistant ((chooseStep log).plan_remaining_steps_brief.headD "")
                     ⟨"step_" ++ toString (i + 1), req.className, req.dumpJson⟩,
                   Msg.tool (sgrResultText dispatch req) ("step_" ++ toString (i + 1))) :: pairs,
                  ?_, ?_, ?_, ?_, ?_⟩
          · rw [hstep, h1]
            simp [joinPairs]
          · simpa using Nat.succ_le_succ h2
          · intro p hp
            rcases List.mem_cons.mp hp with rfl | hp
            · exact ⟨(chooseStep log).plan_remaining_steps_brief.headD "",
                     "step_" ++ toString (i + 1), req, rfl, rfl⟩
            · exact h3 p hp
          · intro h
            rw [hstep] at h ⊢
            exact h4 h
          · intro h
            rw [hstep] at h
            have := h5 h
            simp [this]

/-- C6: the SGR transcript starts as exactly the system message and the user
task message; every executed non-completion step appends exactly one
assistant tool-call turn carrying the chosen request (class name and
serialized arguments) followed by one tool-result turn carrying the
dispatch result or the API-error detail; at most 20 steps run; the loop
flag is true exactly when the model chose the completion report on the
final transcript (to which nothing was appended), and a false flag means
the whole 20-step budget was used.  The model function receives the entire
transcript at every step by construction. -/
theorem sgr_transcript_growth (task_text : String) (chooseStep : List Msg → NextStep)
    (dispatch : StoreRequest → Except ApiError PyResponse) :
    ∃ pairs : List (Msg × Msg),
      (sgr_run_agent task_text chooseStep dispatch).1 =
        [Msg.system sgrSystemPrompt, Msg.user task_text] ++ joinPairs pairs ∧
      pairs.length ≤ 20 ∧
      (∀ p ∈ pairs, ∃ plan sid req,
         p.1 = Msg.assistant plan ⟨sid, req.className, req.dumpJson⟩ ∧
         p.2 = Msg.tool (sgrResultText dispatch req) sid) ∧
      ((sgr_run_agent task_text chooseStep dispatch).2 = true →
         ∃ rep, (chooseStep (sgr_run_agent task_text chooseStep dispatch).1).function =
           Sum.inl rep) ∧
      ((sgr_run_agent task_text chooseStep dispatch).2 = false → pairs.length = 20) :=
  sgrLoop_invariant chooseStep dispatch 20 0
    [Msg.system sgrSystemPrompt, Msg.user task_text]
